import Mathlib

/-
Verification of the rusttype font-handle module (src/font.rs): dual-ownership
font handles (borrowed parsed view vs owned buffer holder), font-wide metrics,
kerning, glyph resolution, and the layout iterator.

Modelling conventions:
- The binary font decoder (ttf-parser) is an external collaborator; it is
  modelled from its documented contract as an abstract `ParsedFont` view plus
  an arbitrary parse function `P : List Nat → Nat → Option ParsedFont`.
- f32 arithmetic is modelled exactly over ℚ (´i16`-to-float conversions are
  exact, and the claims are algebraic identities, not rounding statements).
- A panic (assertion failure, expect on None, unreachable branch) is modelled
  as an `Option` result of `none`; a successful return as `some`.
- `Arc`/`Pin`/`PhantomPinned` plumbing has no observable functional content
  and is dropped; the self-referential construction order of
  `VecFont::try_from_vec` is kept.
-/

/-- Modelled from the spec: the Binary Font Decoder's parsed table-view (§6),
which is external to this repository. Accessors: ascender/descender/line_gap
as i16 design units, optional units-per-em, glyph count (u16), per-glyph
horizontal advance, pair kerning (optional i16), and the Unicode
scalar-to-glyph-id mapping. Per §8 and the glossary, a successfully parsed
font always contains the reserved ".notdef" glyph at index 0 (the decoder
holds the count as a non-zero integer), recorded here as the positivity
field `number_of_glyphs_pos`. -/
structure ParsedFont where
  ascender : Int
  descender : Int
  line_gap : Int
  units_per_em : Option Nat
  number_of_glyphs : Nat
  number_of_glyphs_pos : 0 < number_of_glyphs
  h_advance : Nat → Nat
  kern : Nat → Nat → Option Int
  cmap : Char → Option Nat

/-- Modelled from the spec: `Scale` (§3) — independent horizontal and vertical
pixel-per-em factors; the struct itself lives outside src/. -/
structure Scale where
  x : ℚ
  y : ℚ
deriving DecidableEq

/-- Modelled from the spec: a 2D point (§3); the struct lives outside src/. -/
structure Point where
  x : ℚ
  y : ℚ
deriving DecidableEq

/-- Modelled from the spec: `VMetrics` (§3) — ascent, descent, line gap; the
struct lives outside src/. -/
structure VMetrics where
  ascent : ℚ
  descent : ℚ
  line_gap : ℚ
deriving DecidableEq

/-- Modelled from the spec: scaling a `VMetrics` by an f32 factor is applied
componentwise (§4.2: "unscaled metrics multiplied by
scale_for_pixel_height(scale.y)"); the Mul impl lives outside src/. -/
instance : HMul VMetrics ℚ VMetrics :=
  ⟨fun v s => ⟨v.ascent * s, v.descent * s, v.line_gap * s⟩⟩

/-- A glyph handle: in the source a `Glyph` pairs a cloned font reference with
the glyph id; only the id is functionally observable here. -/
structure Glyph where
  id : Nat
deriving DecidableEq

/-- A positioned glyph as yielded by the layout iterator: glyph id plus pixel
position. -/
structure PositionedGlyph where
  id : Nat
  pos : Point
deriving DecidableEq

/-- Modelled from the spec: the two variants accepted by Glyph Identifier
Resolution (§4.3) — a Unicode scalar value or a raw/already-resolved glyph
id; the `IntoGlyphId` impls live outside src/. -/
inductive GlyphInput where
  | ch (c : Char)
  | gid (id : Nat)
deriving DecidableEq

/-- Modelled from the spec: Glyph Identifier Resolution (§4.3) — a char is
looked up in the decoder's character-to-glyph mapping, defaulting to glyph 0
(".notdef") when absent; a raw glyph id is returned unchanged. -/
def ParsedFont.into_glyph_id (pf : ParsedFont) : GlyphInput → Nat
  | .ch c => (pf.cmap c).getD 0
  | .gid id => id

/-- Embeds `VecFont` (src/font.rs lines 254-258): the owned byte buffer
together with the optional parsed view that borrows from it. The
`PhantomPinned` marker has no functional content and is dropped. -/
structure VecFont where
  data : List Nat
  font : Option ParsedFont

/-- Embeds `VecFont::try_from_vec` (src/font.rs lines 262-277): build the
holder with `font := none`, then invoke the decoder on the (pinned) buffer;
on decoder failure the `?` operator returns `none` and the partially built
holder is discarded, so the parsed view is stored only on success. The parse
function `P` stands for `ttf_parser::Font::from_data`. -/
def VecFont.try_from_vec (P : List Nat → Nat → Option ParsedFont)
    (data : List Nat) (index : Nat) : Option VecFont :=
  let b : VecFont := { data := data, font := none }
  match P b.data index with
  | none => none
  | some f => some { b with font := some f }

/-- Embeds `VecFont::inner_ref` (src/font.rs lines 282-288): return the parsed
view; the `None` arm of the source match is `unreachable_unchecked`, modelled
here by the `none` result (observing `none` means the unreachable branch was
reached). -/
def VecFont.inner_ref (vf : VecFont) : Option ParsedFont :=
  vf.font

/-- Embeds the `Font` enum (src/font.rs lines 30-33): either a borrowed parsed
view (`Ref`) or a shared owned-buffer holder (`Owned`). -/
inductive Font where
  | Ref (pf : ParsedFont)
  | Owned (vf : VecFont)

/-- Embeds `Font::try_from_bytes_and_index` (src/font.rs lines 52-55). -/
def Font.try_from_bytes_and_index (P : List Nat → Nat → Option ParsedFont)
    (bytes : List Nat) (index : Nat) : Option Font :=
  (P bytes index).map Font.Ref

/-- Embeds `Font::try_from_bytes` (src/font.rs lines 45-47). -/
def Font.try_from_bytes (P : List Nat → Nat → Option ParsedFont)
    (bytes : List Nat) : Option Font :=
  Font.try_from_bytes_and_index P bytes 0

/-- Embeds `Font::try_from_vec_and_index` (src/font.rs lines 248-251). -/
def Font.try_from_vec_and_index (P : List Nat → Nat → Option ParsedFont)
    (data : List Nat) (index : Nat) : Option Font :=
  (VecFont.try_from_vec P data index).map Font.Owned

/-- Embeds `Font::try_from_vec` (src/font.rs lines 241-243). -/
def Font.try_from_vec (P : List Nat → Nat → Option ParsedFont)
    (data : List Nat) : Option Font :=
  Font.try_from_vec_and_index P data 0

/-- Embeds `Font::inner` (src/font.rs lines 60-65): resolve the handle to its
parsed view; for the owned variant this goes through `inner_ref`, whose
unreachable branch is modelled as `none`. -/
def Font.inner : Font → Option ParsedFont
  | .Ref pf => some pf
  | .Owned vf => vf.inner_ref

/-- Embeds `Font::glyph_count` (src/font.rs lines 93-95) on the resolved
parsed view: the decoder's number_of_glyphs widened from u16. -/
def ParsedFont.glyph_count (pf : ParsedFont) : Nat :=
  pf.number_of_glyphs

/-- Embeds `Font::v_metrics_unscaled` (src/font.rs lines 75-82) on the
resolved parsed view: raw design-unit ascender/descender/line gap converted
to floating point (exact here). -/
def ParsedFont.v_metrics_unscaled (pf : ParsedFont) : VMetrics :=
  { ascent := (pf.ascender : ℚ)
    descent := (pf.descender : ℚ)
    line_gap := (pf.line_gap : ℚ) }

/-- Embeds `Font::scale_for_pixel_height` (src/font.rs lines 216-220) on the
resolved parsed view: `height / (f32::from(ascender) - f32::from(descender))`. -/
def ParsedFont.scale_for_pixel_height (pf : ParsedFont) (height : ℚ) : ℚ :=
  let fheight : ℚ := (pf.ascender : ℚ) - (pf.descender : ℚ)
  height / fheight

/-- Embeds `Font::v_metrics` (src/font.rs lines 69-71) on the resolved parsed
view: `v_metrics_unscaled() * scale_for_pixel_height(scale.y)`. -/
def ParsedFont.v_metrics (pf : ParsedFont) (scale : Scale) : VMetrics :=
  pf.v_metrics_unscaled * pf.scale_for_pixel_height scale.y

/-- Embeds `Font::pair_kerning` (src/font.rs lines 189-207) on the resolved
parsed view: resolve both operands, build
`factor = scale_for_pixel_height(scale.y) * (scale.x / scale.y)`, take the
decoder's kerning value defaulting to 0, return `factor * kern`. -/
def ParsedFont.pair_kerning (pf : ParsedFont) (scale : Scale)
    (first second : GlyphInput) : ℚ :=
  let first_id := pf.into_glyph_id first
  let second_id := pf.into_glyph_id second
  let factor := pf.scale_for_pixel_height scale.y * (scale.x / scale.y)
  let kern := (pf.kern first_id second_id).getD 0
  factor * (kern : ℚ)

/-- Embeds `Font::glyph` (src/font.rs lines 107-115) on the resolved parsed
view: resolve the identifier, assert it is below `glyph_count` (assertion
failure modelled as `none`), and return the glyph handle. -/
def ParsedFont.glyph (pf : ParsedFont) (id : GlyphInput) : Option Glyph :=
  let gid := pf.into_glyph_id id
  if gid < pf.glyph_count then some { id := gid } else none

/-- Embeds `Font::units_per_em` (src/font.rs lines 85-89): the decoder value,
with the `expect` panic on a missing value modelled as `none`. -/
def Font.units_per_em (f : Font) : Option Nat :=
  f.inner.bind ParsedFont.units_per_em

/-- Embeds `Font::glyph_count` at the handle level (`none` models reaching
the unreachable branch of `inner_ref`). -/
def Font.glyph_count (f : Font) : Option Nat :=
  f.inner.map ParsedFont.glyph_count

/-- Embeds `Font::v_metrics_unscaled` at the handle level. -/
def Font.v_metrics_unscaled (f : Font) : Option VMetrics :=
  f.inner.map ParsedFont.v_metrics_unscaled

/-- Modelled from the spec: a scaled glyph's horizontal advance width (§4.4
"the glyph's scaled horizontal advance width", §6 "conversion to pixels always
happens in the Font Handle layer via scale_for_pixel_height"); the
`ScaledGlyph::h_metrics` code lives outside src/. The decoder's raw advance is
scaled by the same x-compensated factor as kerning. -/
def ParsedFont.scaledAdvance (pf : ParsedFont) (scale : Scale) (gid : Nat) : ℚ :=
  (pf.h_advance gid : ℚ) * (pf.scale_for_pixel_height scale.y * (scale.x / scale.y))

/-- Modelled from the spec: one traversal of the Layout Iterator (§4.4), whose
`Iterator` impl lives outside src/; `Font::layout` (src/font.rs lines 176-185)
seeds the state with caret 0 and no previous glyph. Per step: resolve the
character's glyph; if a previous glyph exists advance the caret by
`pair_kerning(scale, last_glyph, current)`; position the glyph at
`start + (caret, 0)`; advance the caret by the scaled advance width; record
the id as last glyph; yield. -/
def ParsedFont.layoutFrom (pf : ParsedFont) (scale : Scale) (start : Point) :
    List Char → ℚ → Option Nat → List PositionedGlyph
  | [], _, _ => []
  | c :: cs, caret, last =>
    let g := pf.into_glyph_id (GlyphInput.ch c)
    let caret' :=
      match last with
      | some l => caret + pf.pair_kerning scale (GlyphInput.gid l) (GlyphInput.gid g)
      | none => caret
    let p : PositionedGlyph := { id := g, pos := { x := start.x + caret', y := start.y } }
    p :: pf.layoutFrom scale start cs (caret' + pf.scaledAdvance scale g) (some g)

/-- Embeds `Font::layout` (src/font.rs lines 176-185) combined with the
spec-modelled iterator steps: lay out the string's characters from `start`
with caret 0 and no previous glyph. -/
def ParsedFont.layout (pf : ParsedFont) (s : List Char) (scale : Scale)
    (start : Point) : List PositionedGlyph :=
  pf.layoutFrom scale start s 0 none

/-- Sample decoder view used by witnesses: 3 glyphs, kerning only between
glyphs 1 and 2, cmap mapping only the character a. -/
def sampleFont : ParsedFont where
  ascender := 10
  descender := -2
  line_gap := 1
  units_per_em := some 1000
  number_of_glyphs := 3
  number_of_glyphs_pos := by decide
  h_advance := fun _ => 6
  kern := fun a b => if a = 1 ∧ b = 2 then some (-2) else none
  cmap := fun c => if c = 'a' then some 1 else none

/-- Sample decoder view whose units-per-em field is absent. -/
def sampleNoUpm : ParsedFont :=
  { sampleFont with units_per_em := none }

/-- Shared helper: the layout traversal yields exactly one positioned glyph
per input character, whatever the caret and last-glyph state. -/
theorem layoutFrom_length (pf : ParsedFont) (scale : Scale) (start : Point) :
    ∀ (cs : List Char) (caret : ℚ) (last : Option Nat),
      (pf.layoutFrom scale start cs caret last).length = cs.length := by
  intro cs
  induction cs with
  | nil => intro caret last; rfl
  | cons c cs ih => intro caret last; simp [ParsedFont.layoutFrom, ih]

/-- C4: for every font and height, scale_for_pixel_height(h) is exactly
h divided by (ascender - descender), both decoder values converted exactly
to floating point. -/
theorem scale_for_pixel_height_spec (pf : ParsedFont) (height : ℚ) :
    pf.scale_for_pixel_height height =
      height / ((pf.ascender : ℚ) - (pf.descender : ℚ)) := rfl

/-- C5: for every font and scale, v_metrics(scale) is v_metrics_unscaled()
with each component multiplied by scale_for_pixel_height(scale.y). -/
theorem v_metrics_componentwise (pf : ParsedFont) (scale : Scale) :
    pf.v_metrics scale =
      { ascent := pf.v_metrics_unscaled.ascent * pf.scale_for_pixel_height scale.y
        descent := pf.v_metrics_unscaled.descent * pf.scale_for_pixel_height scale.y
        line_gap := pf.v_metrics_unscaled.line_gap * pf.scale_for_pixel_height scale.y } :=
  rfl

/-- C3: pair_kerning equals the decoder's raw kerning value for the resolved
pair (0 when absent) multiplied by
scale_for_pixel_height(scale.y) * (scale.x / scale.y); in particular it is 0
whenever the decoder has no kerning entry for the pair. -/
theorem pair_kerning_spec (pf : ParsedFont) (scale : Scale)
    (first second : GlyphInput) :
    pf.pair_kerning scale first second =
      (((pf.kern (pf.into_glyph_id first) (pf.into_glyph_id second)).getD 0 : ℤ) : ℚ) *
        (pf.scale_for_pixel_height scale.y * (scale.x / scale.y)) ∧
    (pf.kern (pf.into_glyph_id first) (pf.into_glyph_id second) = none →
      pf.pair_kerning scale first second = 0) := by
  constructor
  · simp [ParsedFont.pair_kerning, mul_comm]
  · intro h
    simp [ParsedFont.pair_kerning, h]

/-- Witness for C3 at a concrete font and glyph pair with no kerning entry. -/
theorem pair_kerning_spec_witness :
    sampleFont.pair_kerning { x := 2, y := 4 } (GlyphInput.gid 0) (GlyphInput.gid 1) = 0 :=
  (pair_kerning_spec sampleFont { x := 2, y := 4 }
    (GlyphInput.gid 0) (GlyphInput.gid 1)).2 (by decide)

/-- C7: passing a glyph id at or above glyph_count to glyph(id) hits the
assertion (modelled as none, i.e. a panic, not a typed error or fallback),
and units_per_em() on a parsed font whose decoder reports no units-per-em
value hits the expect panic (none). -/
theorem fatal_preconditions :
    (∀ (pf : ParsedFont) (id : Nat), pf.glyph_count ≤ id →
        pf.glyph (GlyphInput.gid id) = none) ∧
    (∀ pf : ParsedFont, pf.units_per_em = none →
        Font.units_per_em (Font.Ref pf) = none) := by
  constructor
  · intro pf id h
    have hn : ¬ (id < pf.glyph_count) := Nat.not_lt.mpr h
    simp [ParsedFont.glyph, ParsedFont.into_glyph_id, hn]
  · intro pf h
    simp [Font.units_per_em, Font.inner, h]

/-- Witness for C7: glyph id 5 on a 3-glyph font panics, and units_per_em on
a font missing that field panics. -/
theorem fatal_preconditions_witness :
    sampleFont.glyph (GlyphInput.gid 5) = none ∧
    Font.units_per_em (Font.Ref sampleNoUpm) = none :=
  ⟨fatal_preconditions.1 sampleFont 5 (by decide),
   fatal_preconditions.2 sampleNoUpm rfl⟩

/-- C8: every successfully parsed font has a positive glyph count, and
glyph(0) always passes the range assertion (glyph 0, ".notdef", is always
valid). -/
theorem glyph_count_pos_and_glyph_zero (pf : ParsedFont) :
    0 < pf.glyph_count ∧ (pf.glyph (GlyphInput.gid 0)).isSome = true := by
  refine ⟨pf.number_of_glyphs_pos, ?_⟩
  simp [ParsedFont.glyph, ParsedFont.into_glyph_id, ParsedFont.glyph_count,
    pf.number_of_glyphs_pos]

/-- C1: when the decoder cannot parse the buffer at the requested index, the
owned-buffer constructor returns none (nothing partially initialized is
observable), and any successfully returned handle wraps a holder whose
parsed-view back-reference is formed, from a successful parse of the same
buffer. -/
theorem try_from_vec_failure_observability (P : List Nat → Nat → Option ParsedFont)
    (data : List Nat) (index : Nat) :
    (P data index = none → Font.try_from_vec_and_index P data index = none) ∧
    (∀ fh, Font.try_from_vec_and_index P data index = some fh →
      ∃ vf pf, fh = Font.Owned vf ∧ vf.data = data ∧ vf.font = some pf ∧
        P data index = some pf) := by
  constructor
  · intro h
    simp [Font.try_from_vec_and_index, VecFont.try_from_vec, h]
  · intro fh h
    cases hp : P data index with
    | none => simp [Font.try_from_vec_and_index, VecFont.try_from_vec, hp] at h
    | some pf =>
      simp [Font.try_from_vec_and_index, VecFont.try_from_vec, hp] at h
      exact ⟨{ data := data, font := some pf }, pf, h.symm, rfl, rfl, rfl⟩

/-- Witness for C1 with an always-failing decoder. -/
theorem try_from_vec_failure_observability_witness :
    Font.try_from_vec_and_index (fun _ _ => none) [] 0 = none :=
  (try_from_vec_failure_observability (fun _ _ => none) [] 0).1 rfl

/-- C2: when construction succeeds at index 0, the borrowed handle and the
owned handle built from the same bytes agree on glyph_count, units_per_em and
v_metrics_unscaled. -/
theorem borrowed_owned_agree (P : List Nat → Nat → Option ParsedFont)
    (bytes : List Nat) (f1 f2 : Font)
    (h1 : Font.try_from_bytes P bytes = some f1)
    (h2 : Font.try_from_vec P bytes = some f2) :
    f1.glyph_count = f2.glyph_count ∧
    f1.units_per_em = f2.units_per_em ∧
    f1.v_metrics_unscaled = f2.v_metrics_unscaled := by
  cases hp : P bytes 0 with
  | none =>
    simp [Font.try_from_bytes, Font.try_from_bytes_and_index, hp] at h1
  | some pf =>
    simp [Font.try_from_bytes, Font.try_from_bytes_and_index, hp] at h1
    simp [Font.try_from_vec, Font.try_from_vec_and_index, VecFont.try_from_vec, hp] at h2
    subst h1
    subst h2
    simp [Font.glyph_count, Font.units_per_em, Font.v_metrics_unscaled,
      Font.inner, VecFont.inner_ref]

/-- Witness for C2 at a concrete decoder and byte buffer. -/
theorem borrowed_owned_agree_witness :
    (Font.Ref sampleFont).glyph_count =
      (Font.Owned { data := [], font := some sampleFont }).glyph_count ∧
    (Font.Ref sampleFont).units_per_em =
      (Font.Owned { data := [], font := some sampleFont }).units_per_em ∧
    (Font.Ref sampleFont).v_metrics_unscaled =
      (Font.Owned { data := [], font := some sampleFont }).v_metrics_unscaled :=
  borrowed_owned_agree (fun _ _ => some sampleFont) [] _ _ rfl rfl

/-- C10: every owned holder wrapped in a handle returned by a successful
constructor has its parsed-view field set, so the unreachable branch of
inner_ref is never taken. -/
theorem inner_ref_never_unreachable (P : List Nat → Nat → Option ParsedFont)
    (data : List Nat) (index : Nat) (vf : VecFont)
    (h : Font.try_from_vec_and_index P data index = some (Font.Owned vf)) :
    (vf.inner_ref).isSome = true := by
  cases hp : P data index with
  | none => simp [Font.try_from_vec_and_index, VecFont.try_from_vec, hp] at h
  | some pf =>
    simp [Font.try_from_vec_and_index, VecFont.try_from_vec, hp] at h
    cases h
    rfl

/-- Witness for C10 at a concrete decoder and buffer. -/
theorem inner_ref_never_unreachable_witness :
    (VecFont.inner_ref { data := [], font := some sampleFont }).isSome = true :=
  inner_ref_never_unreachable (fun _ _ => some sampleFont) [] 0
    { data := [], font := some sampleFont } rfl

/-- C6: layout yields one glyph per character, and for a two-character string
the first glyph sits at the start position while the second glyph's
x-position is the first's x-position plus the first glyph's scaled advance
width plus the pair kerning of the two glyph ids; both share the start's
y-position. -/
theorem layout_two_char_spec (pf : ParsedFont) (scale : Scale) (start : Point)
    (a b : Char) :
    (∀ cs : List Char, (pf.layout cs scale start).length = cs.length) ∧
    ∃ g1 g2, pf.layout [a, b] scale start = [g1, g2] ∧
      g1.id = pf.into_glyph_id (GlyphInput.ch a) ∧
      g1.pos.x = start.x ∧ g1.pos.y = start.y ∧
      g2.id = pf.into_glyph_id (GlyphInput.ch b) ∧
      g2.pos.x = g1.pos.x + pf.scaledAdvance scale g1.id +
        pf.pair_kerning scale (GlyphInput.gid g1.id) (GlyphInput.gid g2.id) ∧
      g2.pos.y = start.y := by
  refine ⟨fun cs => layoutFrom_length pf scale start cs 0 none, ?_⟩
  refine
    ⟨{ id := pf.into_glyph_id (GlyphInput.ch a), pos := { x := start.x, y := start.y } },
     { id := pf.into_glyph_id (GlyphInput.ch b),
       pos :=
        { x :=
            start.x + pf.scaledAdvance scale (pf.into_glyph_id (GlyphInput.ch a)) +
              pf.pair_kerning scale (GlyphInput.gid (pf.into_glyph_id (GlyphInput.ch a)))
                (GlyphInput.gid (pf.into_glyph_id (GlyphInput.ch b))),
          y := start.y } },
     ?_, rfl, rfl, rfl, rfl, rfl, rfl⟩
  simp [ParsedFont.layout, ParsedFont.layoutFrom]
  ring_nf

/-- C9: two runs of layout with identical font, string, scale and start
produce element-for-element identical glyph ids and positions. -/
theorem layout_deterministic (pf : ParsedFont) (s : List Char) (scale : Scale)
    (start : Point) :
    List.Forall₂ (fun g1 g2 => g1.id = g2.id ∧ g1.pos = g2.pos)
      (pf.layout s scale start) (pf.layout s scale start) :=
  List.forall₂_same.mpr (fun _ _ => ⟨rfl, rfl⟩)
